import Mathlib

/-!
Verification of the To-do-Automater scheduling/dispatch core.

Shallow embedding of the Python source files `main.py`,
`modules/email_sender.py`, `modules/stock_fetcher.py`,
`modules/calendar_invite.py` and `modules/gemini_parser.py`.

Modelling conventions:
* Python dict values appearing in task records are modelled by `JValue`
  (a JSON-like value type); task records themselves are modelled by
  `TaskRecord`, a struct of optional fields mirroring the keys the code
  reads (`task.get(...)` becomes `Option.getD`).  The code calls string
  methods (`.lower()`) on these fields, so the string-valued fields are
  modelled as `Option String`.
* External services (SMTP, yfinance, Google Calendar) are modelled by an
  `Env` record giving the outcome of each external call; an uncaught
  Python exception is modelled by the `exn` field of `DispatchResult`
  being `some errorMessage`.
* Side effects (prints and executor invocations) are modelled as an
  ordered trace of `Effect`s.
* Python string methods are modelled by structural functions on the
  character list (`pyLower`, `strStartsWith`, ...), so that every
  definition evaluates inside the kernel; `Char.toLower` agrees with
  Python `str.lower` on ASCII, which is all the code compares against
  (the literal "unknown").
-/

/-- Model of Python `str.lower` (ASCII case mapping; the code only ever
compares the result against the ASCII literal "unknown").  Defined on
the character list so that it evaluates inside the kernel. -/
def pyLower (s : String) : String := String.mk (s.data.map Char.toLower)

/-- Model of Python `c in s` for a single character: substring search
for a one-character needle is character membership. -/
def pyContainsChar (s : String) (c : Char) : Bool := s.data.contains c

/-- Model of Python `s.startswith(p)`. -/
def strStartsWith (s p : String) : Bool := s.data.take p.data.length = p.data

/-- Model of Python `s.endswith(p)`. -/
def strEndsWith (s p : String) : Bool :=
  s.data.drop (s.data.length - p.data.length) = p.data ∧ p.data.length ≤ s.data.length

/-- Model of Python `s[n:]`. -/
def strDrop (s : String) (n : Nat) : String := String.mk (s.data.drop n)

/-- Model of Python `s[:-n]`. -/
def strDropRight (s : String) (n : Nat) : String :=
  String.mk (s.data.take (s.data.length - n))

/-- Model of Python `s.strip()`: removes leading and trailing
whitespace. -/
def strTrim (s : String) : String :=
  String.mk (((s.data.dropWhile Char.isWhitespace).reverse.dropWhile
    Char.isWhitespace).reverse)

/-- JSON-like values, modelling the Python dict/list/str/int/bool/None
values that occur inside parsed task records and event payloads. -/
inductive JValue where
  | str (s : String)
  | num (n : Int)
  | bool (b : Bool)
  | null
  | arr (xs : List JValue)
  | obj (fields : List (String × JValue))

/-- Python truthiness of a `JValue` (`if event_details:`): empty
strings/containers, zero and `None` are falsy. -/
def JValue.truthy : JValue → Bool
  | .str s => s ≠ ""
  | .num n => n ≠ 0
  | .bool b => b
  | .null => false
  | .arr xs => !xs.isEmpty
  | .obj fs => !fs.isEmpty

/-- Association-list lookup, modelling Python `dict.get(key)` on the
field list of a JSON object. -/
def jlookup : List (String × JValue) → String → Option JValue
  | [], _ => none
  | (k, v) :: rest, key => if k = key then some v else jlookup rest key

/-- Python `d.get(key)` for a `JValue`; `none` when the value is not an
object or the key is missing. -/
def jget : JValue → String → Option JValue
  | .obj fs, key => jlookup fs key
  | _, _ => none

/-- Two-level lookup `(jget v a)` then `dateTime`-style inner key. -/
def jget2 (v : JValue) (outer inner : String) : Option JValue :=
  match jget v outer with
  | some w => jget w inner
  | none => none

/-- Returns true when the value is a plain string, modelling Python
`isinstance(x, str)`. -/
def JValue.isStr : JValue → Bool
  | .str _ => true
  | _ => false

/-- One parsed task record (a Python dict).  The code only ever reads
these keys; string-typed keys are `Option String` (present iff the key
is in the dict), the `event` payload is an arbitrary `JValue`. -/
structure TaskRecord where
  task_type : Option String
  time : Option String
  email : Option String
  subject : Option String
  message : Option String
  stock_symbol : Option String
  event : Option JValue

/-- Module-level constant `EMAIL_SENDER` from `main.py`: the operator's
configured address. -/
def EMAIL_SENDER : String := "example@gmail.com"

/-- Module-level constant `EMAIL_PASSWORD` from `main.py`. -/
def EMAIL_PASSWORD : String := "16 digit app password here"

/-- Outcome of the yfinance `stock.info` lookup inside
`get_stock_price`: the attribute access can raise, or yield an optional
`regularMarketPrice` (rendered as the string Python would interpolate). -/
inductive StockInfoResult where
  | raised (e : String)
  | price (p : Option String)

/-- Outcomes of the external services for one dispatch: `smtpError`
models the SMTP send raising, `stockInfo` the yfinance lookup,
`calendarError` the Google Calendar create-event call raising, and
`calendarLink` the `htmlLink` returned on success. -/
structure Env where
  smtpError : Option String
  stockInfo : StockInfoResult
  calendarError : Option String
  calendarLink : String

/-- Console log lines the code prints, tagged with the data they carry. -/
inductive LogLine where
  | executingTask (t : TaskRecord)
  | emailSent (recipient : String)
  | emailFailed (err : String)
  | eventCreated (link : String)
  | noEventDetails
  | unknownTaskType (tt : Option String)

/-- One observable step of a dispatch: an executor invocation (with the
exact arguments the code passes) or a printed log line. -/
inductive Effect where
  | emailCall (sender password recipient subject message : String)
  | stockCall (ticker : String)
  | calendarCall (event : JValue)
  | log (line : LogLine)

/-- Model of `send_email` in `modules/email_sender.py`: the whole body
is wrapped in `try/except`, so a failing SMTP send is logged and never
propagates; the function's observable behaviour is its trace. -/
def send_email (sender password recipient subject message : String)
    (env : Env) : List Effect :=
  Effect.emailCall sender password recipient subject message ::
    match env.smtpError with
    | none => [Effect.log (LogLine.emailSent recipient)]
    | some e => [Effect.log (LogLine.emailFailed e)]

/-- Model of `get_stock_price` in `modules/stock_fetcher.py`: no
`try/except`, so a raising yfinance lookup propagates (`Except.error`);
otherwise the price, or the sentinel "Price not available" when the
`regularMarketPrice` key is missing. -/
def get_stock_price (ticker : String) (env : Env) :
    List Effect × Except String String :=
  match env.stockInfo with
  | .raised e => ([Effect.stockCall ticker], Except.error e)
  | .price none => ([Effect.stockCall ticker], Except.ok "Price not available")
  | .price (some p) => ([Effect.stockCall ticker], Except.ok p)

/-- Model of `create_calendar_invite` in `modules/calendar_invite.py`:
no `try/except`, so a raising Calendar API call propagates (second
component `some e`); on success the event link is printed. -/
def create_calendar_invite (event_details : JValue) (env : Env) :
    List Effect × Option String :=
  match env.calendarError with
  | some e => ([Effect.calendarCall event_details], some e)
  | none => ([Effect.calendarCall event_details,
              Effect.log (LogLine.eventCreated env.calendarLink)], none)

/-- The event-normalization step of `dispatch_task` (`main.py` lines
70-81): when the event's "start" value is a plain string, rebuild the
event as a structured payload with the fixed Pacific time zone and the
default summary "Meeting"; otherwise the event passes through
unchanged. -/
def normalize_event (ev : JValue) : JValue :=
  match jget ev "start" with
  | some (JValue.str s) =>
    JValue.obj
      [("summary", (jget ev "summary").getD (JValue.str "Meeting")),
       ("start", JValue.obj
          [("dateTime", JValue.str s),
           ("timeZone", JValue.str "America/Los_Angeles")]),
       ("end", JValue.obj
          [("dateTime", (jget ev "end").getD JValue.null),
           ("timeZone", JValue.str "America/Los_Angeles")])]
  | _ => ev

/-- Result of one `dispatch_task` call: the ordered trace of effects
that happened, and `exn = some e` exactly when an uncaught Python
exception escapes `dispatch_task`. -/
structure DispatchResult where
  effects : List Effect
  exn : Option String

/-- Model of `dispatch_task` in `main.py` (lines 14-86), translated
branch by branch from the source. -/
def dispatch_task (env : Env) (task : TaskRecord) : DispatchResult :=
  let pre : List Effect := [Effect.log (LogLine.executingTask task)]
  if task.task_type = some "email_reminder" then
    let email := task.email.getD EMAIL_SENDER
    let email := if pyLower email = "unknown" then EMAIL_SENDER else email
    let subject := task.subject.getD "Reminder"
    let message := task.message.getD ""
    ⟨pre ++ send_email EMAIL_SENDER EMAIL_PASSWORD email subject message env, none⟩
  else if task.task_type = some "stock_price" then
    let ticker := task.stock_symbol.getD "AAPL"
    match get_stock_price ticker env with
    | (effs, Except.error e) => ⟨pre ++ effs, some e⟩
    | (effs, Except.ok price) =>
      let subject := task.subject.getD ("Stock Price Update for " ++ ticker)
      let message := "The current price for " ++ ticker ++ " is " ++ price
      let email := task.email.getD EMAIL_SENDER
      let email := if pyLower email = "unknown" then EMAIL_SENDER else email
      ⟨pre ++ effs ++ send_email EMAIL_SENDER EMAIL_PASSWORD email subject message env, none⟩
  else if task.task_type = some "calendar_invite" then
    match task.event with
    | some ev =>
      if ev.truthy then
        match ev with
        | JValue.obj _ =>
          let res := create_calendar_invite (normalize_event ev) env
          ⟨pre ++ res.1, res.2⟩
        | _ => ⟨pre, some "AttributeError: event details is not a mapping"⟩
      else ⟨pre ++ [Effect.log LogLine.noEventDetails], none⟩
    | none => ⟨pre ++ [Effect.log LogLine.noEventDetails], none⟩
  else
    ⟨pre ++ [Effect.log (LogLine.unknownTaskType task.task_type)], none⟩

/-- Projection of a trace onto the email-executor invocations, with the
argument tuples the executor was called with. -/
def emailCallsOf : List Effect → List (String × String × String × String × String)
  | [] => []
  | Effect.emailCall a b c d e :: rest => (a, b, c, d, e) :: emailCallsOf rest
  | _ :: rest => emailCallsOf rest

/-- Projection of a trace onto the calendar-executor invocations. -/
def calendarCallsOf : List Effect → List JValue
  | [] => []
  | Effect.calendarCall ev :: rest => ev :: calendarCallsOf rest
  | _ :: rest => calendarCallsOf rest

/-- Projection of a trace onto the stock-executor invocations. -/
def stockCallsOf : List Effect → List String
  | [] => []
  | Effect.stockCall t :: rest => t :: stockCallsOf rest
  | _ :: rest => stockCallsOf rest

/-- Calendar date-time at second granularity, modelling Python
`datetime.datetime` as the scheduler uses it (`total_seconds` is taken
at whole-second precision since every time the code constructs has zero
microseconds). -/
structure DateTime where
  year : Nat
  month : Nat
  day : Nat
  hour : Nat
  minute : Nat
  second : Nat

/-- Gregorian leap-year test. -/
def isLeapYear (y : Nat) : Bool := (y % 4 = 0 && y % 100 ≠ 0) || y % 400 = 0

/-- Days in the months strictly before month `m` of a non-leap year
(month numbered 1-12). -/
def cumulativeDays (m : Nat) : Nat :=
  [0, 0, 31, 59, 90, 120, 151, 181, 212, 243, 273, 304, 334].getD m 334

/-- Number of days from 0001-01-01 to the given date (proleptic
Gregorian, years ≥ 1, matching Python `datetime.date.toordinal - 1`). -/
def daysBeforeDate (d : DateTime) : Nat :=
  let y := d.year - 1
  (365 * y + y / 4 + y / 400) - y / 100 + cumulativeDays d.month +
    (if 2 < d.month && isLeapYear d.year then 1 else 0) + (d.day - 1)

/-- Seconds from 0001-01-01T00:00:00 to the given instant; differences
of `toSecs` model `(a - b).total_seconds()`. -/
def toSecs (d : DateTime) : Int :=
  86400 * (daysBeforeDate d : Int) + 3600 * (d.hour : Int) +
    60 * (d.minute : Int) + (d.second : Int)

/-- Value of the decimal digit character. -/
def digitVal (c : Char) : Nat := c.toNat - 48

/-- Reads one or two leading decimal digits (the `%H`/`%M` directives of
CPython `strptime`, which match 1-2 digits greedily). -/
def takeDigits2 : List Char → Option (Nat × List Char)
  | [] => none
  | [c] => if c.isDigit then some (digitVal c, []) else none
  | c1 :: c2 :: rest =>
    if c1.isDigit then
      if c2.isDigit then some (digitVal c1 * 10 + digitVal c2, rest)
      else some (digitVal c1, c2 :: rest)
    else none

/-- Model of `datetime.datetime.strptime(f"{today} {s}", "%Y-%m-%d %H:%M")`
restricted to its dependence on `s`: since `today` always renders
validly, the call succeeds exactly when `s` is leading-whitespace (the
literal blank in the format matches a whitespace run) followed by a 1-2
digit hour 0-23, a colon, and a 1-2 digit minute 0-59 ending the
string; the result is the parsed (hour, minute). -/
def parseHM (s : String) : Option (Nat × Nat) :=
  let cs := s.data.dropWhile Char.isWhitespace
  match takeDigits2 cs with
  | some (h, ':' :: rest) =>
    (match takeDigits2 rest with
     | some (m, []) => if h ≤ 23 && m ≤ 59 then some (h, m) else none
     | _ => none)
  | _ => none

/-- Today's date (from `now`) combined with a parsed clock time;
`strptime` leaves seconds at 0. -/
def combineToday (now : DateTime) (h m : Nat) : DateTime :=
  ⟨now.year, now.month, now.day, h, m, 0⟩

/-- The `try` block of `schedule_task`: if the raw string contains "T"
it goes to `datetime.fromisoformat` (modelled by the parameter
`fromiso`, `none` = the library call raises), otherwise to the
`strptime` path; `none` models the caught parse exception. -/
def resolveTime (fromiso : String → Option DateTime) (now : DateTime)
    (s : String) : Option DateTime :=
  if pyContainsChar s 'T' then fromiso s
  else (parseHM s).map (fun p => combineToday now p.1 p.2)

/-- Outcome of one `schedule_task` call: either `dispatch_task` is
called synchronously right now on the same record (the `except` branch)
or a one-shot `threading.Timer` is armed with the computed non-negative
delay, bound to the same record. -/
inductive SchedAction where
  | immediateDispatch (t : TaskRecord)
  | timer (delaySeconds : Int) (scheduled : DateTime) (t : TaskRecord)

/-- Model of `schedule_task` in `main.py` (lines 89-143), translated
from the source: parse the time (on failure dispatch immediately);
compute the signed delay; force it to 0 for `calendar_invite`; clamp
negatives to 0; arm the timer. -/
def schedule_task (fromiso : String → Option DateTime) (now : DateTime)
    (task : TaskRecord) : SchedAction :=
  let task_time_str := task.time.getD ""
  match resolveTime fromiso now task_time_str with
  | none => SchedAction.immediateDispatch task
  | some scheduled =>
    let delay : Int := toSecs scheduled - toSecs now
    let delay := if task.task_type = some "calendar_invite" then 0 else delay
    let delay := if delay < 0 then 0 else delay
    SchedAction.timer delay scheduled task

/-- Model of the scheduling pass in `main` (`for task in tasks:
schedule_task(task)`): schedules each task in order; when a task's time
fails to parse, `dispatch_task` runs synchronously inside the loop, and
an uncaught exception escaping it aborts the rest of the pass (second
component `some e`). -/
def run_scheduling (env : Env) (fromiso : String → Option DateTime)
    (now : DateTime) : List TaskRecord → List SchedAction × Option String
  | [] => ([], none)
  | t :: ts =>
    match schedule_task fromiso now t with
    | SchedAction.immediateDispatch t' =>
      (match (dispatch_task env t').exn with
       | some e => ([SchedAction.immediateDispatch t'], some e)
       | none =>
         let rest := run_scheduling env fromiso now ts
         (SchedAction.immediateDispatch t' :: rest.1, rest.2))
    | a =>
      let rest := run_scheduling env fromiso now ts
      (a :: rest.1, rest.2)

/-- Model of `clean_llm_output` in `modules/gemini_parser.py`: strips a
leading markdown fence (7 characters, then `strip()`) and a trailing
fence (3 characters, then `strip()`). -/
def clean_llm_output (llm_output : String) : String :=
  let s1 := if strStartsWith llm_output "```json"
            then strTrim (strDrop llm_output 7) else llm_output
  if strEndsWith s1 "```" then strTrim (strDropRight s1 3) else s1

/-- Skips JSON insignificant whitespace (space, tab, newline, carriage
return — exactly the set `json.loads` skips). -/
def skipWs : List Char → List Char
  | [] => []
  | c :: cs =>
    if c = ' ' || c = '\t' || c = '\n' || c = '\r' then skipWs cs else c :: cs

/-- Reads the body of a JSON string after the opening quote, up to the
closing quote.  Escape sequences and control characters are outside the
modelled fragment (the parse fails on them). -/
def parseJString : List Char → Option (String × List Char)
  | [] => none
  | c :: cs =>
    if c = '"' then some ("", cs)
    else if c = '\\' || c.toNat < 32 then none
    else (parseJString cs).map (fun r => (String.mk (c :: r.1.data), r.2))

/-- Splits off the maximal run of leading decimal digits. -/
def parseDigits : List Char → List Char × List Char
  | [] => ([], [])
  | c :: cs =>
    if c.isDigit then
      let r := parseDigits cs
      (c :: r.1, r.2)
    else ([], c :: cs)

/-- Numeric value of a digit run. -/
def digitsToNat (ds : List Char) : Nat :=
  ds.foldl (fun a c => a * 10 + digitVal c) 0

/-- Reads a JSON integer (optional minus sign, no leading zeros).
Fractional and exponent forms are outside the modelled fragment. -/
def parseJNumber (cs : List Char) : Option (JValue × List Char) :=
  let signed := match cs with
    | '-' :: r => (true, r)
    | _ => (false, cs)
  let ds := parseDigits signed.2
  match ds.1 with
  | [] => none
  | d :: drest =>
    if d = '0' && drest ≠ [] then none
    else
      match ds.2 with
      | '.' :: _ => none
      | 'e' :: _ => none
      | 'E' :: _ => none
      | rest =>
        let n : Int := digitsToNat ds.1
        some (JValue.num (if signed.1 then -n else n), rest)

/-- Mode of the fueled JSON parser: a single value, the items of an
array after `[`, or the members of an object after `{`. -/
inductive PMode where
  | value
  | items
  | members

/-- Fueled recursive-descent JSON parser (modelling the grammar
`json.loads` accepts, restricted to the fragment described above).
In `items`/`members` mode the returned value is the parsed
`JValue.arr`/`JValue.obj`. -/
def parseCore : Nat → PMode → List Char → Option (JValue × List Char)
  | 0, _, _ => none
  | fuel + 1, PMode.value, cs =>
    (match skipWs cs with
     | 'n' :: 'u' :: 'l' :: 'l' :: rest => some (JValue.null, rest)
     | 't' :: 'r' :: 'u' :: 'e' :: rest => some (JValue.bool true, rest)
     | 'f' :: 'a' :: 'l' :: 's' :: 'e' :: rest => some (JValue.bool false, rest)
     | '"' :: rest => (parseJString rest).map (fun r => (JValue.str r.1, r.2))
     | '[' :: rest =>
       (match skipWs rest with
        | ']' :: rest2 => some (JValue.arr [], rest2)
        | _ => parseCore fuel PMode.items rest)
     | '{' :: rest =>
       (match skipWs rest with
        | '}' :: rest2 => some (JValue.obj [], rest2)
        | _ => parseCore fuel PMode.members rest)
     | other => parseJNumber other)
  | fuel + 1, PMode.items, cs =>
    (match parseCore fuel PMode.value cs with
     | some (v, rest) =>
       (match skipWs rest with
        | ',' :: rest2 =>
          (match parseCore fuel PMode.items rest2 with
           | some (JValue.arr xs, rest3) => some (JValue.arr (v :: xs), rest3)
           | _ => none)
        | ']' :: rest2 => some (JValue.arr [v], rest2)
        | _ => none)
     | none => none)
  | fuel + 1, PMode.members, cs =>
    (match skipWs cs with
     | '"' :: rest =>
       (match parseJString rest with
        | some (k, rest1) =>
          (match skipWs rest1 with
           | ':' :: rest2 =>
             (match parseCore fuel PMode.value rest2 with
              | some (v, rest3) =>
                (match skipWs rest3 with
                 | ',' :: rest4 =>
                   (match parseCore fuel PMode.members rest4 with
                    | some (JValue.obj ms, rest5) =>
                      some (JValue.obj ((k, v) :: ms), rest5)
                    | _ => none)
                 | '}' :: rest4 => some (JValue.obj [(k, v)], rest4)
                 | _ => none)
              | none => none)
           | _ => none)
        | none => none)
     | _ => none)

/-- Model of `json.loads` on the modelled JSON fragment: parse one value
and require only whitespace to remain; `none` models
`json.JSONDecodeError`. -/
def jsonLoads (s : String) : Option JValue :=
  match parseCore (2 * s.length + 2) PMode.value s.data with
  | some (v, rest) => if skipWs rest = [] then some v else none
  | none => none

/-- Result of `parse_tasks`: the value returned to the caller and
whether the JSON-decode-error path (which prints the diagnostics) was
taken. -/
structure ParseOut where
  value : JValue
  errorLogged : Bool

/-- Model of `parse_tasks` in `modules/gemini_parser.py` (lines 115-129)
as a function of the raw model output (the `call_gemini` network call is
the external collaborator producing that output): clean the fences, try
`json.loads`, and on a decode error log and return the empty list.
Whatever `json.loads` yields — list or not — is returned unvalidated. -/
def parse_tasks (llm_output : String) : ParseOut :=
  let cleaned := clean_llm_output llm_output
  match jsonLoads cleaned with
  | some tasks => ⟨tasks, false⟩
  | none => ⟨JValue.arr [], true⟩

/-- Returns true when the value is a JSON array (a Python list). -/
def JValue.isArr : JValue → Bool
  | .arr _ => true
  | _ => false

/-- The email-call projection distributes over trace concatenation. -/
theorem emailCallsOf_append (xs ys : List Effect) :
    emailCallsOf (xs ++ ys) = emailCallsOf xs ++ emailCallsOf ys := by
  induction xs with
  | nil => rfl
  | cons x xs ih => cases x <;> simp [emailCallsOf, ih]

/-- The calendar-call projection distributes over trace concatenation. -/
theorem calendarCallsOf_append (xs ys : List Effect) :
    calendarCallsOf (xs ++ ys) = calendarCallsOf xs ++ calendarCallsOf ys := by
  induction xs with
  | nil => rfl
  | cons x xs ih => cases x <;> simp [calendarCallsOf, ih]

/-- A `send_email` trace contains exactly one email-executor call, with
the arguments it was invoked with, whether or not the send fails. -/
theorem emailCallsOf_send_email (sender password recipient subject message : String)
    (env : Env) :
    emailCallsOf (send_email sender password recipient subject message env) =
      [(sender, password, recipient, subject, message)] := by
  cases h : env.smtpError <;> simp [send_email, h, emailCallsOf]

/-- A lookup that succeeds forces the field list to be nonempty. -/
theorem jlookup_ne_nil {fs : List (String × JValue)} {key : String} {v : JValue}
    (h : jlookup fs key = some v) : fs.isEmpty = false := by
  cases fs with
  | nil => simp [jlookup] at h
  | cons f fs => rfl

/-- C1: for every task record with `task_type = "calendar_invite"` whose
time field parses successfully (so that a timer is armed rather than the
immediate-dispatch fallback), the delay `schedule_task` arms the timer
with is 0, regardless of the parsed time. -/
theorem c1_calendar_invite_delay_zero
    (fromiso : String → Option DateTime) (now : DateTime) (task : TaskRecord)
    (hty : task.task_type = some "calendar_invite")
    (d : Int) (s : DateTime) (t : TaskRecord)
    (hres : schedule_task fromiso now task = SchedAction.timer d s t) :
    d = 0 := by
  simp only [schedule_task] at hres
  cases hr : resolveTime fromiso now (task.time.getD "") with
  | none => rw [hr] at hres; simp at hres
  | some sched =>
    rw [hr] at hres
    simp only [hty, Option.some.injEq, reduceIte, SchedAction.timer.injEq] at hres
    obtain ⟨h1, -, -⟩ := hres
    omega

/-- Witness for C1 at a concrete calendar task with time "10:00". -/
theorem c1_calendar_invite_delay_zero_witness :
    (TaskRecord.mk (some "calendar_invite") (some "10:00") none none none none none).task_type
      = some "calendar_invite" ∧ (0 : Int) = 0 :=
  ⟨rfl, c1_calendar_invite_delay_zero (fun _ => none) ⟨2025, 3, 15, 12, 0, 0⟩
    (TaskRecord.mk (some "calendar_invite") (some "10:00") none none none none none) rfl
    0 ⟨2025, 3, 15, 10, 0, 0⟩
    (TaskRecord.mk (some "calendar_invite") (some "10:00") none none none none none) rfl⟩

/-- Helper: when the time resolves, `schedule_task` arms a timer for
the resolved instant, bound to the same record. -/
theorem schedule_task_timer_of_resolve
    (fromiso : String → Option DateTime) (now : DateTime) (task : TaskRecord)
    (sched : DateTime)
    (hres : resolveTime fromiso now (task.time.getD "") = some sched) :
    ∃ d, schedule_task fromiso now task = SchedAction.timer d sched task := by
  simp only [schedule_task, hres]
  exact ⟨_, rfl⟩

/-- C7: for every task record whose time field is a valid bare "HH:MM"
clock time with no "T" separator, the resolved fire instant has today's
date (the date of `now`) with the given hour and minute. -/
theorem c7_bare_time_resolves_today
    (fromiso : String → Option DateTime) (now : DateTime) (task : TaskRecord)
    (ts : String) (h m : Nat)
    (htime : task.time = some ts)
    (hnoT : pyContainsChar ts 'T' = false)
    (hp : parseHM ts = some (h, m)) :
    ∃ d, schedule_task fromiso now task =
      SchedAction.timer d ⟨now.year, now.month, now.day, h, m, 0⟩ task := by
  apply schedule_task_timer_of_resolve
  rw [htime]
  simp only [Option.getD_some, resolveTime, hnoT, Bool.false_eq_true, if_false,
    hp, Option.map_some', combineToday]

/-- Witness for C7 at a concrete email task with time "07:30". -/
theorem c7_bare_time_resolves_today_witness :
    (TaskRecord.mk (some "email_reminder") (some "07:30") none none none none none).time
        = some "07:30" ∧
    pyContainsChar "07:30" 'T' = false ∧
    parseHM "07:30" = some (7, 30) ∧
    ∃ d, schedule_task (fun _ => none) ⟨2025, 3, 15, 12, 0, 0⟩
        (TaskRecord.mk (some "email_reminder") (some "07:30") none none none none none) =
      SchedAction.timer d ⟨2025, 3, 15, 7, 30, 0⟩
        (TaskRecord.mk (some "email_reminder") (some "07:30") none none none none none) :=
  ⟨rfl, by decide, by decide,
    c7_bare_time_resolves_today (fun _ => none) ⟨2025, 3, 15, 12, 0, 0⟩
      (TaskRecord.mk (some "email_reminder") (some "07:30") none none none none none)
      "07:30" 7 30 rfl (by decide) (by decide)⟩

/-- C9: for every task record whose `task_type` is not one of the three
known tags, `dispatch_task` invokes no executor, prints the
unknown-type log line, and returns normally (no exception). -/
theorem c9_unknown_task_type_noop
    (env : Env) (task : TaskRecord)
    (h1 : task.task_type ≠ some "email_reminder")
    (h2 : task.task_type ≠ some "stock_price")
    (h3 : task.task_type ≠ some "calendar_invite") :
    dispatch_task env task =
      ⟨[Effect.log (LogLine.executingTask task),
        Effect.log (LogLine.unknownTaskType task.task_type)], none⟩ := by
  simp [dispatch_task, h1, h2, h3]

/-- Witness for C9 at the task `{task_type: "frobnicate"}`. -/
theorem c9_unknown_task_type_noop_witness :
    (some "frobnicate" ≠ some "email_reminder") ∧
    dispatch_task ⟨none, StockInfoResult.price none, none, ""⟩
        (TaskRecord.mk (some "frobnicate") none none none none none none) =
      ⟨[Effect.log (LogLine.executingTask
          (TaskRecord.mk (some "frobnicate") none none none none none none)),
        Effect.log (LogLine.unknownTaskType (some "frobnicate"))], none⟩ :=
  ⟨by decide,
    c9_unknown_task_type_noop ⟨none, StockInfoResult.price none, none, ""⟩
      (TaskRecord.mk (some "frobnicate") none none none none none none)
      (by decide) (by decide) (by decide)⟩

/-- Transcription of the spec/claim wording for recipient resolution:
the operator's configured address when the email field is absent or
case-insensitively equal to "unknown", otherwise the given field. -/
def specRecipient : Option String → String
  | none => EMAIL_SENDER
  | some e => if pyLower e = "unknown" then EMAIL_SENDER else e

/-- The recipient expression computed by the code coincides with the
spec's resolution rule. -/
theorem code_recipient_eq_spec (email : Option String) :
    (if pyLower (email.getD EMAIL_SENDER) = "unknown" then EMAIL_SENDER
     else email.getD EMAIL_SENDER) = specRecipient email := by
  cases email with
  | none =>
    have h : ¬ (pyLower EMAIL_SENDER = "unknown") := by decide
    simp [specRecipient, h]
  | some e => simp [specRecipient]

/-- An ISO parser that always fails, for concrete scheduling runs whose
time strings never take the ISO branch. -/
def fromisoNone : String → Option DateTime := fun _ => none

/-- Concrete "now" used by the concrete scheduling runs. -/
def now0 : DateTime := ⟨2025, 3, 15, 12, 0, 0⟩

/-- Concrete calendar task whose time "25:99" cannot be parsed. -/
def badTimeCalTask : TaskRecord :=
  ⟨some "calendar_invite", some "25:99", none, none, none, none,
    some (JValue.obj [("start",
      JValue.obj [("dateTime", JValue.str "2025-03-15T10:00:00")])])⟩

/-- Concrete email task scheduled after the failing one. -/
def tailEmailTask : TaskRecord :=
  ⟨some "email_reminder", some "17:00", none, none, none, none, none⟩

/-- Environment where the Calendar API call raises. -/
def calFailEnv : Env :=
  ⟨none, StockInfoResult.price none, some "calendar service down", ""⟩

/-- Environment where every external call succeeds. -/
def calOkEnv : Env := ⟨none, StockInfoResult.price none, none, "http://link"⟩

/-- Environment where the yfinance lookup raises. -/
def stockFailEnv : Env :=
  ⟨none, StockInfoResult.raised "network unreachable", none, ""⟩

/-- Concrete stock task. -/
def stockTask0 : TaskRecord :=
  ⟨some "stock_price", some "09:00", none, none, none, some "NVDA", none⟩

/-- C2 counterexample: a stock-lookup failure is not caught anywhere in
`dispatch_task` — it escapes as an uncaught exception, refuting the
claim that every executor failure is caught at the narrowest scope and
never propagates. -/
theorem c2_executor_failure_escapes_cex :
    (dispatch_task stockFailEnv stockTask0).exn = some "network unreachable" := rfl

/-- C2 (amended): only email-send failures are caught and logged inside
the email executor; dispatching an `email_reminder` never raises, and a
failing SMTP send leaves a log line in the trace instead. -/
theorem c2_email_failures_never_propagate
    (env : Env) (task : TaskRecord)
    (hty : task.task_type = some "email_reminder") :
    (dispatch_task env task).exn = none ∧
    ∀ e, env.smtpError = some e →
      Effect.log (LogLine.emailFailed e) ∈ (dispatch_task env task).effects := by
  constructor
  · simp [dispatch_task, hty]
  · intro e he
    simp [dispatch_task, hty, send_email, he]

/-- Environment where the SMTP send raises. -/
def smtpFailEnv : Env :=
  ⟨some "SMTPAuthenticationError", StockInfoResult.price none, none, ""⟩

/-- Concrete email task with recipient "UNKNOWN". -/
def emailTask0 : TaskRecord :=
  ⟨some "email_reminder", some "17:00", some "UNKNOWN", none, none, none, none⟩

/-- Witness for the amended C2 at a concrete failing SMTP environment. -/
theorem c2_email_failures_never_propagate_witness :
    emailTask0.task_type = some "email_reminder" ∧
    (dispatch_task smtpFailEnv emailTask0).exn = none ∧
    Effect.log (LogLine.emailFailed "SMTPAuthenticationError") ∈
      (dispatch_task smtpFailEnv emailTask0).effects :=
  have h := c2_email_failures_never_propagate smtpFailEnv emailTask0 rfl
  ⟨rfl, h.1, h.2 "SMTPAuthenticationError" rfl⟩

/-- C3 counterexample: a task with unparsable time is dispatched
immediately, but when that synchronous dispatch raises (here: the
calendar executor fails), the scheduling pass aborts and the remaining
task is never scheduled — refuting the unconditional "the scheduling
pass continues for remaining tasks". -/
theorem c3_unparsable_time_pass_abort_cex :
    resolveTime fromisoNone now0 (badTimeCalTask.time.getD "") = none ∧
    run_scheduling calFailEnv fromisoNone now0 [badTimeCalTask, tailEmailTask] =
      ([SchedAction.immediateDispatch badTimeCalTask], some "calendar service down") :=
  ⟨rfl, rfl⟩

/-- C3 (amended): an absent or unparsable time makes `schedule_task`
call the Dispatcher immediately on the very same record instead of
dropping it, and the scheduling pass continues with the remaining tasks
provided that immediate dispatch does not itself raise. -/
theorem c3_unparsable_time_dispatches_immediately
    (env : Env) (fromiso : String → Option DateTime) (now : DateTime)
    (task : TaskRecord) (rest : List TaskRecord)
    (hfail : resolveTime fromiso now (task.time.getD "") = none)
    (hok : (dispatch_task env task).exn = none) :
    schedule_task fromiso now task = SchedAction.immediateDispatch task ∧
    run_scheduling env fromiso now (task :: rest) =
      (SchedAction.immediateDispatch task :: (run_scheduling env fromiso now rest).1,
       (run_scheduling env fromiso now rest).2) := by
  have h1 : schedule_task fromiso now task = SchedAction.immediateDispatch task := by
    simp only [schedule_task, hfail]
  exact ⟨h1, by simp only [run_scheduling, h1, hok]⟩

/-- Witness for the amended C3: same unparsable-time task, succeeding
calendar environment; the tail task is still scheduled. -/
theorem c3_unparsable_time_dispatches_immediately_witness :
    resolveTime fromisoNone now0 (badTimeCalTask.time.getD "") = none ∧
    (dispatch_task calOkEnv badTimeCalTask).exn = none ∧
    run_scheduling calOkEnv fromisoNone now0 [badTimeCalTask, tailEmailTask] =
      (SchedAction.immediateDispatch badTimeCalTask ::
        (run_scheduling calOkEnv fromisoNone now0 [tailEmailTask]).1,
       (run_scheduling calOkEnv fromisoNone now0 [tailEmailTask]).2) :=
  ⟨rfl, rfl, (c3_unparsable_time_dispatches_immediately calOkEnv fromisoNone now0
      badTimeCalTask [tailEmailTask] rfl rfl).2⟩

/-- C4: for every `email_reminder` task, the dispatcher makes exactly
one email-executor call, whose recipient follows the spec's resolution
rule (operator's address when absent or case-insensitively "unknown"),
whose subject defaults to "Reminder" and whose message defaults to the
empty string. -/
theorem c4_email_reminder_resolution
    (env : Env) (task : TaskRecord)
    (hty : task.task_type = some "email_reminder") :
    emailCallsOf (dispatch_task env task).effects =
      [(EMAIL_SENDER, EMAIL_PASSWORD, specRecipient task.email,
        task.subject.getD "Reminder", task.message.getD "")] := by
  cases he : env.smtpError <;>
    simp [dispatch_task, hty, emailCallsOf_append, emailCallsOf,
      emailCallsOf_send_email, code_recipient_eq_spec, send_email, he]

/-- Witness for C4 at a concrete task whose recipient field is
"UNKNOWN" (resolving to the operator's address). -/
theorem c4_email_reminder_resolution_witness :
    emailTask0.task_type = some "email_reminder" ∧
    specRecipient emailTask0.email = EMAIL_SENDER ∧
    emailCallsOf (dispatch_task calOkEnv emailTask0).effects =
      [(EMAIL_SENDER, EMAIL_PASSWORD, specRecipient emailTask0.email,
        emailTask0.subject.getD "Reminder", emailTask0.message.getD "")] :=
  ⟨rfl, by decide, c4_email_reminder_resolution calOkEnv emailTask0 rfl⟩

/-- Environment where the stock lookup succeeds with price 120.5. -/
def stockOkEnv : Env := ⟨none, StockInfoResult.price (some "120.5"), none, ""⟩

/-- Concrete stock task with no subject, no email and no ticker. -/
def stockNoSubjectTask : TaskRecord :=
  ⟨some "stock_price", some "09:00", none, none, none, none, none⟩

/-- C5 counterexample: a `stock_price` task with no subject field
resolves its subject to "Stock Price Update for AAPL", not to the
"Reminder" default the claim asserts. -/
theorem c5_stock_subject_not_reminder_cex :
    emailCallsOf (dispatch_task stockOkEnv stockNoSubjectTask).effects =
      [(EMAIL_SENDER, EMAIL_PASSWORD, EMAIL_SENDER,
        "Stock Price Update for AAPL", "The current price for AAPL is 120.5")] ∧
    "Stock Price Update for AAPL" ≠ "Reminder" :=
  ⟨rfl, by decide⟩

/-- C5 (amended): for every `stock_price` task whose stock lookup does
not raise, the recipient follows the same resolution rule as
`email_reminder`, but the subject defaults to
"Stock Price Update for {ticker}" (not "Reminder"), and the message
embeds ticker and price (or the unavailable sentinel). -/
theorem c5_stock_price_resolution
    (env : Env) (task : TaskRecord) (p : Option String)
    (hty : task.task_type = some "stock_price")
    (hinfo : env.stockInfo = StockInfoResult.price p) :
    emailCallsOf (dispatch_task env task).effects =
      [(EMAIL_SENDER, EMAIL_PASSWORD, specRecipient task.email,
        task.subject.getD ("Stock Price Update for " ++ task.stock_symbol.getD "AAPL"),
        "The current price for " ++ task.stock_symbol.getD "AAPL" ++ " is " ++
          p.getD "Price not available")] := by
  have h1 : task.task_type ≠ some "email_reminder" := by rw [hty]; decide
  cases p with
  | none =>
    cases he : env.smtpError <;>
      simp [dispatch_task, h1, hty, get_stock_price, hinfo, emailCallsOf_append,
        emailCallsOf, emailCallsOf_send_email, code_recipient_eq_spec,
        send_email, he]
  | some v =>
    cases he : env.smtpError <;>
      simp [dispatch_task, h1, hty, get_stock_price, hinfo, emailCallsOf_append,
        emailCallsOf, emailCallsOf_send_email, code_recipient_eq_spec,
        send_email, he]

/-- Witness for the amended C5 at the concrete no-subject stock task. -/
theorem c5_stock_price_resolution_witness :
    stockNoSubjectTask.task_type = some "stock_price" ∧
    stockOkEnv.stockInfo = StockInfoResult.price (some "120.5") ∧
    emailCallsOf (dispatch_task stockOkEnv stockNoSubjectTask).effects =
      [(EMAIL_SENDER, EMAIL_PASSWORD, specRecipient stockNoSubjectTask.email,
        stockNoSubjectTask.subject.getD
          ("Stock Price Update for " ++ stockNoSubjectTask.stock_symbol.getD "AAPL"),
        "The current price for " ++ stockNoSubjectTask.stock_symbol.getD "AAPL" ++
          " is " ++ (some "120.5").getD "Price not available")] :=
  ⟨rfl, rfl, c5_stock_price_resolution stockOkEnv stockNoSubjectTask
    (some "120.5") rfl rfl⟩

/-- Helper: for a truthy object event, the calendar executor is invoked
exactly once, with the normalized event, whether or not the Calendar
API call fails. -/
theorem calendarCallsOf_dispatch
    (env : Env) (task : TaskRecord) (fs : List (String × JValue))
    (hty : task.task_type = some "calendar_invite")
    (hev : task.event = some (JValue.obj fs))
    (hne : fs.isEmpty = false) :
    calendarCallsOf (dispatch_task env task).effects =
      [normalize_event (JValue.obj fs)] := by
  have h1 : task.task_type ≠ some "email_reminder" := by rw [hty]; decide
  have h2 : task.task_type ≠ some "stock_price" := by rw [hty]; decide
  have htr : (JValue.obj fs).truthy = true := by simp [JValue.truthy, hne]
  cases hce : env.calendarError <;>
    simp [dispatch_task, h1, h2, hty, hev, htr, create_calendar_invite, hce,
      calendarCallsOf_append, calendarCallsOf]

/-- C6: a `calendar_invite` event whose "start" and "end" are plain
strings is normalized into a structured payload whose
`start.dateTime`/`end.dateTime` equal the original strings, with the
fixed Pacific time zone on both sides, and that payload is what the
calendar executor is invoked with. -/
theorem c6_calendar_normalization_roundtrip
    (env : Env) (task : TaskRecord) (ev : JValue) (s1 s2 : String)
    (hty : task.task_type = some "calendar_invite")
    (hev : task.event = some ev)
    (hstart : jget ev "start" = some (JValue.str s1))
    (hend : jget ev "end" = some (JValue.str s2)) :
    ∃ p, calendarCallsOf (dispatch_task env task).effects = [p] ∧
      jget2 p "start" "dateTime" = some (JValue.str s1) ∧
      jget2 p "start" "timeZone" = some (JValue.str "America/Los_Angeles") ∧
      jget2 p "end" "dateTime" = some (JValue.str s2) ∧
      jget2 p "end" "timeZone" = some (JValue.str "America/Los_Angeles") := by
  cases ev with
  | str s => simp [jget] at hstart
  | num n => simp [jget] at hstart
  | bool b => simp [jget] at hstart
  | null => simp [jget] at hstart
  | arr xs => simp [jget] at hstart
  | obj fs =>
    have hne : fs.isEmpty = false := jlookup_ne_nil (show jlookup fs "start" = _ from hstart)
    have hnorm : normalize_event (JValue.obj fs) =
        JValue.obj
          [("summary", (jget (JValue.obj fs) "summary").getD (JValue.str "Meeting")),
           ("start", JValue.obj
              [("dateTime", JValue.str s1),
               ("timeZone", JValue.str "America/Los_Angeles")]),
           ("end", JValue.obj
              [("dateTime", JValue.str s2),
               ("timeZone", JValue.str "America/Los_Angeles")])] := by
      simp only [normalize_event, hstart, hend, Option.getD_some]
    refine ⟨normalize_event (JValue.obj fs),
      calendarCallsOf_dispatch env task fs hty hev hne, ?_, ?_, ?_, ?_⟩ <;>
      rw [hnorm] <;> rfl

/-- Concrete calendar task whose event has bare string start/end. -/
def calStringTask : TaskRecord :=
  ⟨some "calendar_invite", some "2025-03-15T10:00:00", none, none, none, none,
    some (JValue.obj
      [("summary", JValue.str "Team Sync"),
       ("start", JValue.str "2025-03-15T10:00:00"),
       ("end", JValue.str "2025-03-15T11:00:00")])⟩

/-- Witness for C6 at a concrete event with string start/end. -/
theorem c6_calendar_normalization_roundtrip_witness :
    calStringTask.task_type = some "calendar_invite" ∧
    (∃ ev, calStringTask.event = some ev ∧
      jget ev "start" = some (JValue.str "2025-03-15T10:00:00") ∧
      jget ev "end" = some (JValue.str "2025-03-15T11:00:00")) ∧
    ∃ p, calendarCallsOf (dispatch_task calOkEnv calStringTask).effects = [p] ∧
      jget2 p "start" "dateTime" = some (JValue.str "2025-03-15T10:00:00") ∧
      jget2 p "start" "timeZone" = some (JValue.str "America/Los_Angeles") ∧
      jget2 p "end" "dateTime" = some (JValue.str "2025-03-15T11:00:00") ∧
      jget2 p "end" "timeZone" = some (JValue.str "America/Los_Angeles") :=
  ⟨rfl, ⟨_, rfl, rfl, rfl⟩,
    c6_calendar_normalization_roundtrip calOkEnv calStringTask _
      "2025-03-15T10:00:00" "2025-03-15T11:00:00" rfl rfl rfl rfl⟩

/-- C10: when the event's "start" field is present but not a plain
string, the event payload is handed to the calendar executor exactly as
received — no "Meeting" default, no timezone normalization — even if
the summary is missing or "end" is a plain string. -/
theorem c10_structured_start_passthrough
    (env : Env) (task : TaskRecord) (ev v : JValue)
    (hty : task.task_type = some "calendar_invite")
    (hev : task.event = some ev)
    (hstart : jget ev "start" = some v)
    (hns : v.isStr = false) :
    calendarCallsOf (dispatch_task env task).effects = [ev] := by
  cases ev with
  | str s => simp [jget] at hstart
  | num n => simp [jget] at hstart
  | bool b => simp [jget] at hstart
  | null => simp [jget] at hstart
  | arr xs => simp [jget] at hstart
  | obj fs =>
    have hne : fs.isEmpty = false := jlookup_ne_nil (show jlookup fs "start" = _ from hstart)
    have hnorm : normalize_event (JValue.obj fs) = JValue.obj fs := by
      cases v with
      | str s => simp [JValue.isStr] at hns
      | num n => simp [normalize_event, hstart]
      | bool b => simp [normalize_event, hstart]
      | null => simp [normalize_event, hstart]
      | arr xs => simp [normalize_event, hstart]
      | obj ms => simp [normalize_event, hstart]
    rw [calendarCallsOf_dispatch env task fs hty hev hne, hnorm]

/-- Concrete calendar task whose event has a structured start, a string
end and no summary. -/
def calStructuredTask : TaskRecord :=
  ⟨some "calendar_invite", some "10:00", none, none, none, none,
    some (JValue.obj
      [("start", JValue.obj
          [("dateTime", JValue.str "2025-03-15T10:00:00"),
           ("timeZone", JValue.str "UTC")]),
       ("end", JValue.str "2025-03-15T11:00:00")])⟩

/-- Witness for C10 at a concrete structured-start event. -/
theorem c10_structured_start_passthrough_witness :
    calStructuredTask.task_type = some "calendar_invite" ∧
    (∃ ev, calStructuredTask.event = some ev ∧
      jget ev "start" = some (JValue.obj
        [("dateTime", JValue.str "2025-03-15T10:00:00"),
         ("timeZone", JValue.str "UTC")]) ∧
      (JValue.obj [("dateTime", JValue.str "2025-03-15T10:00:00"),
         ("timeZone", JValue.str "UTC")]).isStr = false ∧
      calendarCallsOf (dispatch_task calOkEnv calStructuredTask).effects = [ev]) :=
  ⟨rfl, ⟨_, rfl, rfl, rfl,
    c10_structured_start_passthrough calOkEnv calStructuredTask _ _ rfl rfl rfl rfl⟩⟩

/-- C8 counterexample: the raw model output "42" is valid JSON but is
not a sequence of task records, yet `parse_tasks` returns the decoded
number unvalidated — neither an ordered sequence (list) nor the empty
sequence — refuting the claim that every non-task-record-shaped output
yields an empty sequence. -/
theorem c8_nonlist_json_returned_cex :
    parse_tasks "42" = ⟨JValue.num 42, false⟩ ∧
    (parse_tasks "42").value.isArr = false :=
  ⟨rfl, rfl⟩

/-- C8 (amended): `parse_tasks` returns the JSON-decoded value of the
cleaned model output whatever its shape (it performs no task-record
shape validation), and returns the empty list — with the decode error
logged, never fatally — exactly when the cleaned output is not valid
JSON. -/
theorem c8_parse_tasks_json_or_empty (s : String) :
    (∀ v, jsonLoads (clean_llm_output s) = some v → parse_tasks s = ⟨v, false⟩) ∧
    (jsonLoads (clean_llm_output s) = none → parse_tasks s = ⟨JValue.arr [], true⟩) := by
  constructor
  · intro v hv
    simp [parse_tasks, hv]
  · intro hv
    simp [parse_tasks, hv]

/-- Witness for the amended C8: a non-JSON output yields the logged
empty list; a fenced JSON array output yields the decoded array. -/
theorem c8_parse_tasks_json_or_empty_witness :
    parse_tasks "the model refused" = ⟨JValue.arr [], true⟩ ∧
    parse_tasks "[\x7b\"task_type\": \"email_reminder\"\x7d]" =
      ⟨JValue.arr [JValue.obj [("task_type", JValue.str "email_reminder")]], false⟩ :=
  ⟨(c8_parse_tasks_json_or_empty "the model refused").2 rfl,
   (c8_parse_tasks_json_or_empty "[\x7b\"task_type\": \"email_reminder\"\x7d]").1
     (JValue.arr [JValue.obj [("task_type", JValue.str "email_reminder")]]) rfl⟩
